import Mathlib

/-!
Verification of the fastmiddle input-remapping daemon (NicoNex/fastmiddle).

The development shallowly embeds the C sources:
  * `backend.c` — the modular variant (event transformer `mouse_callback`,
    contact tracker `touch_callback`, device subscription set
    `devices_register` / `devices_cleanup`, the bounded-retry acquisition
    loop of `listen_click_loop`, and the run controller `run_click_loop` /
    `state_cleanup`);
  * `main.c` — the near-duplicate monolithic variant (namespace `MainC`).

Machine integers (`int`, `CFIndex`, `int64_t` event fields) are modelled as
`Int`/`Nat`; none of the embedded code paths can overflow on the values the
claims range over.  CoreGraphics / IOKit / Multitouch calls that mutate an
event or a device are modelled as pure functions, and the device-lifecycle
functions additionally emit a trace of the Multitouch framework calls they
perform, so that release/registration discipline is observable.
-/

/-- CoreGraphics event-type constant `kCGEventLeftMouseDown`. -/
def kCGEventLeftMouseDown : Nat := 1

/-- CoreGraphics event-type constant `kCGEventLeftMouseUp`. -/
def kCGEventLeftMouseUp : Nat := 2

/-- CoreGraphics event-type constant `kCGEventOtherMouseDown`. -/
def kCGEventOtherMouseDown : Nat := 25

/-- CoreGraphics event-type constant `kCGEventOtherMouseUp`. -/
def kCGEventOtherMouseUp : Nat := 26

/-- CoreGraphics event-field constant `kCGMouseEventButtonNumber`. -/
def kCGMouseEventButtonNumber : Nat := 3

/-- CoreGraphics mouse-button constant `kCGMouseButtonCenter`. -/
def kCGMouseButtonCenter : Int := 2

/-- A `CGEventRef` pointer event.  The program only ever touches the event's
type and its `kCGMouseEventButtonNumber` integer field; `location`,
`timestamp` and `flags` stand for the positional, timing and remaining
fields, which must survive a rewrite untouched. -/
structure CGEvent where
  type : Nat
  buttonNumber : Int
  location : Int × Int
  timestamp : Nat
  flags : Nat
deriving DecidableEq, Repr

/-- `CGEventSetType(event, type)`: in-place mutation of the event's type,
modelled functionally. -/
def CGEventSetType (event : CGEvent) (type : Nat) : CGEvent :=
  { event with type := type }

/-- `CGEventSetIntegerValueField(event, field, value)`.  The program only
calls it with `kCGMouseEventButtonNumber`; other fields are left alone. -/
def CGEventSetIntegerValueField (event : CGEvent) (field : Nat) (value : Int) : CGEvent :=
  if field = kCGMouseEventButtonNumber then { event with buttonNumber := value } else event

/-- The two pieces of mutable state read and written by the two callbacks in
`backend.c`: the file-scope global `current_fingers` (an `int`) and the
static local `is_middle_click` of `mouse_callback` (a `bool`). -/
structure FmGlobals where
  current_fingers : Int
  is_middle_click : Bool
deriving DecidableEq, Repr

/-- `touch_callback` from `backend.c` lines 12–15: overwrite `current_fingers`
with `nFingers` and return 0.  The `fingers` array and the `double` timestamp
are never read, so their types are left abstract. -/
def touch_callback {Fingers Timestamp : Type} (g : FmGlobals) (device : Int)
    (fingers : Fingers) (nFingers : Int) (timestamp : Timestamp) (frame : Int) :
    FmGlobals × Int :=
  ({ g with current_fingers := nFingers }, 0)

/-- `mouse_callback` from `backend.c` lines 17–41, as a pure transition on
`FmGlobals` returning the (possibly mutated) event.  The C body is

```c
if (current_fingers != 3 && !is_middle_click) return event;
switch (type) {
case kCGEventLeftMouseDown: SetType(OtherMouseDown); SetField(Button, Center); is_middle_click = true; break;
case kCGEventLeftMouseUp:   SetType(OtherMouseUp);   SetField(Button, Center); is_middle_click = false; break;
}
return event;
```
(the switch has no default, so other types fall through unchanged). -/
def mouse_callback (g : FmGlobals) (type : Nat) (event : CGEvent) : FmGlobals × CGEvent :=
  if g.current_fingers ≠ 3 ∧ g.is_middle_click = false then
    (g, event)
  else if type = kCGEventLeftMouseDown then
    ({ g with is_middle_click := true },
     CGEventSetIntegerValueField (CGEventSetType event kCGEventOtherMouseDown)
       kCGMouseEventButtonNumber kCGMouseButtonCenter)
  else if type = kCGEventLeftMouseUp then
    ({ g with is_middle_click := false },
     CGEventSetIntegerValueField (CGEventSetType event kCGEventOtherMouseUp)
       kCGMouseEventButtonNumber kCGMouseButtonCenter)
  else
    (g, event)

/-- A sample left-button-down event used in concrete counterexamples. -/
def sampleDownEvent : CGEvent :=
  { type := kCGEventLeftMouseDown, buttonNumber := 0, location := (10, 20),
    timestamp := 5, flags := 0 }

/-- A sample left-button-up event used in concrete counterexamples. -/
def sampleUpEvent : CGEvent :=
  { type := kCGEventLeftMouseUp, buttonNumber := 0, location := (10, 20),
    timestamp := 6, flags := 0 }

namespace MainC

/-- `touch_callback` from `main.c` lines 11–14 (the monolithic variant):
overwrite `current_fingers` with `nFingers` and return 0. -/
def touch_callback {Fingers Timestamp : Type} (g : FmGlobals) (device : Int)
    (fingers : Fingers) (nFingers : Int) (timestamp : Timestamp) (frame : Int) :
    FmGlobals × Int :=
  ({ g with current_fingers := nFingers }, 0)

/-- `mouse_callback` from `main.c` lines 16–40 (the monolithic variant):
same guard `current_fingers != 3 && !is_middle_click`, same two switch cases
rewriting a left down/up to an other-button down/up with the centre button. -/
def mouse_callback (g : FmGlobals) (type : Nat) (event : CGEvent) : FmGlobals × CGEvent :=
  if g.current_fingers ≠ 3 ∧ g.is_middle_click = false then
    (g, event)
  else if type = kCGEventLeftMouseDown then
    ({ g with is_middle_click := true },
     CGEventSetIntegerValueField (CGEventSetType event kCGEventOtherMouseDown)
       kCGMouseEventButtonNumber kCGMouseButtonCenter)
  else if type = kCGEventLeftMouseUp then
    ({ g with is_middle_click := false },
     CGEventSetIntegerValueField (CGEventSetType event kCGEventOtherMouseUp)
       kCGMouseEventButtonNumber kCGMouseButtonCenter)
  else
    (g, event)

end MainC

/-!
## Device Subscription Set

`struct mt_devices` holds a `CFMutableArrayRef` of `MTDeviceRef` handles and
its length.  Handles are modelled as natural numbers; a `CFArray` slot can in
principle hold `NULL`, which the C code checks for, so slots are `Option Nat`.
`devices_register` / `devices_cleanup` perform only Multitouch framework
calls on the handles; the embedding returns the trace of those calls so the
registration/release discipline is observable.  Both functions take the
struct **by value** and neither mutates it, exactly as in the C. -/

/-- One `struct mt_devices` value (`backend.h` lines 5–8). -/
structure mt_devices where
  array : List (Option Nat)
  len : Nat
deriving DecidableEq, Repr

/-- A call into the private Multitouch framework, tagged with the device
handle it is applied to. -/
inductive MTCall where
  | registerCb (d : Nat)
  | start (d : Nat)
  | unregisterCb (d : Nat)
  | stop (d : Nat)
  | release (d : Nat)
deriving DecidableEq, Repr

/-- `CFArrayGetValueAtIndex(devices.array, i)`; an out-of-range read never
occurs in the program (`len` is the array's count), and is modelled as
`NULL`. -/
def CFArrayGetValueAtIndex (array : List (Option Nat)) (i : Nat) : Option Nat :=
  array.getD i none

/-- `devices_register` from `backend.c` lines 64–72: for each index below
`len`, if the slot is non-`NULL`, register the contact-frame callback and
start the device. -/
def devices_register (devices : mt_devices) : List MTCall :=
  (List.range devices.len).flatMap fun i =>
    match CFArrayGetValueAtIndex devices.array i with
    | some d => [MTCall.registerCb d, MTCall.start d]
    | none => []

/-- `devices_cleanup` from `backend.c` lines 74–83: for each index below
`len`, if the slot is non-`NULL`, unregister the callback, stop the device
and release the handle.  The struct is taken by value and no field of it is
cleared. -/
def devices_cleanup (devices : mt_devices) : List MTCall :=
  (List.range devices.len).flatMap fun i =>
    match CFArrayGetValueAtIndex devices.array i with
    | some d => [MTCall.unregisterCb d, MTCall.stop d, MTCall.release d]
    | none => []

/-!
## Interception Supervisor and Run Controller

`struct fm_state` (`backend.h` lines 10–15) carries the Device Subscription
Set and the three CoreFoundation/IOKit handles.  Handles are `Option Nat`
(`none` = `NULL`).  OS calls whose results the code branches on are supplied
as oracles: `create i` is the result of the `i`-th `CGEventTapCreate`
attempt, `src` the result of `CFMachPortCreateRunLoopSource`, `kres_ok`
whether `IOServiceAddMatchingNotification` returned `KERN_SUCCESS`. -/

/-- One `struct fm_state` value. -/
structure fm_state where
  devices : mt_devices
  port : Option Nat
  tap_event : Option Nat
  run_loop_src : Option Nat
deriving DecidableEq, Repr

/-- `new_state` from `backend.c` lines 181–183: only `devices` is set, the
remaining fields are zero-initialised (`NULL`). -/
def new_state (devices : mt_devices) : fm_state :=
  { devices := devices, port := none, tap_event := none, run_loop_src := none }

/-- `stop_io_notifications` from `backend.c` lines 95–100: destroy the
notification port if present and null the field. -/
def stop_io_notifications (s : fm_state) : fm_state :=
  if s.port ≠ none then { s with port := none } else s

/-- `listen_io_notification` from `backend.c` lines 102–129: create the
notification port (handle `p`), register the matching notification, return
whether that returned `KERN_SUCCESS`.  The port field is set in either
case. -/
def listen_io_notification (p : Nat) (kres_ok : Bool) (s : fm_state) : fm_state × Bool :=
  ({ s with port := some p }, kres_ok)

/-- `stop_click_loop` from `backend.c` lines 131–141: disable and release the
tap if present and null the field; remove and release the run-loop source if
present (the C leaves `run_loop_src` dangling — the field is not nulled, so
the state value is unchanged there). -/
def stop_click_loop (s : fm_state) : fm_state :=
  { s with tap_event := none }

/-- The bounded-retry acquisition loop of `listen_click_loop` (`backend.c`
lines 144–157):

```c
for (int i = 0; state->tap_event == NULL && i < 300; i++) {
    state->tap_event = CGEventTapCreate(...);
    if (state->tap_event == NULL) { sleep(1); }
}
```

`create i` is the result of the attempt made at loop index `i`.  Returns
`(attempts, sleeps, final tap_event)` where `attempts` counts executions of
the loop body (calls to `CGEventTapCreate`) and `sleeps` the `sleep(1)`
calls.  `fuel` is structural-recursion fuel instantiated at 300; since the
guard keeps `i < 300` verbatim and `fuel` starts at `300 - i`, the fuel
never runs out before the guard fails. -/
def tap_loop (create : Nat → Option Nat) : Nat → Nat → Option Nat → Nat × Nat × Option Nat
  | _, 0, tap_event => (0, 0, tap_event)
  | i, fuel + 1, tap_event =>
    if tap_event = none ∧ i < 300 then
      let t := create i
      let rest := tap_loop create (i + 1) fuel t
      (rest.1 + 1, (if t = none then 1 else 0) + rest.2.1, rest.2.2)
    else
      (0, 0, tap_event)

/-- How one call to `listen_click_loop` returned, distinguishing the two
`return 1` sites by their error message. -/
inductive LCLResult where
  /-- `CFRunLoopRun` returned, `stop_click_loop` ran, `return 0`. -/
  | ok
  /-- "Failed to create event tap. Check accessibility permissions.",
  `return 1` — the `InterceptionUnavailable` / permission-denied error. -/
  | tapFailed
  /-- "Failed to create run loop source.", `return 1`. -/
  | srcFailed
deriving DecidableEq, Repr

/-- `listen_click_loop` from `backend.c` lines 143–179, instrumented with the
attempt and sleep counts of the acquisition loop.  On the `srcFailed` path
the C has already stored the acquired tap in `state->tap_event` and the
`NULL` source in `state->run_loop_src`; on the `ok` path `CFRunLoopRun`
eventually returns and `stop_click_loop` clears the tap. -/
def listen_click_loop (create : Nat → Option Nat) (src : Option Nat) (s : fm_state) :
    fm_state × Nat × Nat × LCLResult :=
  let r := tap_loop create 0 300 s.tap_event
  match r.2.2 with
  | none => ({ s with tap_event := none }, r.1, r.2.1, LCLResult.tapFailed)
  | some t =>
    match src with
    | none => ({ s with tap_event := some t, run_loop_src := none },
               r.1, r.2.1, LCLResult.srcFailed)
    | some rs =>
      (stop_click_loop { s with tap_event := some t, run_loop_src := some rs },
       r.1, r.2.1, LCLResult.ok)

/-- The `for (;;)` loop of `run_click_loop` (`backend.c` lines 195–201):
call `listen_click_loop`; on nonzero return do `devices_cleanup` then
`stop_io_notifications` and return; otherwise iterate.  `oracle n` supplies
the tap-create oracle and the run-loop-source result for the `n`-th call;
`fuel` bounds the iterations modelled (`none` = still looping).  The
returned trace holds the Multitouch calls of the exit path. -/
def run_click_loop_iter (oracle : Nat → (Nat → Option Nat) × Option Nat) :
    Nat → Nat → fm_state → Option (fm_state × List MTCall)
  | _, 0, _ => none
  | n, fuel + 1, s =>
    let r := listen_click_loop (oracle n).1 (oracle n).2 s
    if r.2.2.2 = LCLResult.ok then
      run_click_loop_iter oracle (n + 1) fuel r.1
    else
      some (stop_io_notifications r.1, devices_cleanup r.1.devices)

/-- `run_click_loop` from `backend.c` lines 185–202: register all devices,
install the IO notification (fatal path: stop notifications, clean up
devices, return), then drive `listen_click_loop` forever until it fails.
The returned trace accumulates every Multitouch framework call made. -/
def run_click_loop (p : Nat) (kres_ok : Bool)
    (oracle : Nat → (Nat → Option Nat) × Option Nat) (fuel : Nat) (s : fm_state) :
    Option (fm_state × List MTCall) :=
  let tr := devices_register s.devices
  let r := listen_io_notification p kres_ok s
  if r.2 = false then
    let s1 := stop_io_notifications r.1
    some (s1, tr ++ devices_cleanup s1.devices)
  else
    match run_click_loop_iter oracle 0 fuel r.1 with
    | none => none
    | some (s2, tr2) => some (s2, tr ++ tr2)

/-- `state_cleanup` from `backend.c` lines 204–208: stop notifications, stop
the click loop, clean up the devices. -/
def state_cleanup (s : fm_state) : fm_state × List MTCall :=
  let s1 := stop_io_notifications s
  let s2 := stop_click_loop s1
  (s2, devices_cleanup s2.devices)

/-- One touch-frame report as delivered to `touch_callback`.  The `fingers`
array and the `double` timestamp are never read by the callback, so they are
carried as `Unit` placeholders. -/
structure Frame where
  device : Int
  fingers : Unit
  nFingers : Int
  timestamp : Unit
  frame : Int
deriving DecidableEq, Repr

/-- Process a finite sequence of touch-frame reports through `touch_callback`
in order, threading the global state. -/
def run_frames (g : FmGlobals) (frames : List Frame) : FmGlobals :=
  frames.foldl
    (fun acc f => (touch_callback acc f.device f.fingers f.nFingers f.timestamp f.frame).1) g

/-- A concrete two-frame report sequence for the C5 witness. -/
def framesC5 : List Frame := [⟨1, (), 3, (), 0⟩, ⟨1, (), 2, (), 1⟩]

/-!
## Theorems about the Event Transformer
-/

/-- C1 counterexample: with the Click Conversion Flag false and a contact
count of 4 (which is ≥ 3), a primary-button down event is passed through
unmodified and the flag stays false — it is *not* rewritten to a
secondary-button down, because the guard in `mouse_callback` tests
`current_fingers != 3`, not `current_fingers >= 3`. -/
theorem C1_counterexample :
    mouse_callback ⟨4, false⟩ kCGEventLeftMouseDown sampleDownEvent =
      (⟨4, false⟩, sampleDownEvent) ∧
    sampleDownEvent.type ≠ kCGEventOtherMouseDown := by decide

/-- C1 (amended): a primary-button down event delivered while the Click
Conversion Flag is false is rewritten to a secondary-button (middle) down
event with the flag becoming true exactly when the current contact count is
exactly 3; for every other contact count (in particular every count
strictly greater than 3) it is passed through unmodified and the flag stays
false. -/
theorem C1_down_converts_iff_exactly_three (cf : Int) (e : CGEvent) :
    mouse_callback ⟨cf, false⟩ kCGEventLeftMouseDown e =
      if cf = 3 then
        (⟨cf, true⟩,
         { e with type := kCGEventOtherMouseDown, buttonNumber := kCGMouseButtonCenter })
      else
        (⟨cf, false⟩, e) := by
  by_cases h : cf = 3 <;>
    simp [mouse_callback, CGEventSetType, CGEventSetIntegerValueField,
      kCGEventLeftMouseDown, kCGEventLeftMouseUp, kCGEventOtherMouseDown,
      kCGMouseEventButtonNumber, h]

/-- C2 counterexample: with the flag false and a contact count of exactly 3,
a primary-button up event is *not* passed through unmodified — the guard
`current_fingers != 3 && !is_middle_click` fails, so the up is rewritten to
a secondary-button up. -/
theorem C2_counterexample :
    (mouse_callback ⟨3, false⟩ kCGEventLeftMouseUp sampleUpEvent).2 ≠ sampleUpEvent := by decide

/-- C2 (amended): a primary-button up event delivered while the Click
Conversion Flag is false is passed through unmodified with the flag staying
false for every contact count other than 3; when the contact count is
exactly 3 the event is instead rewritten to a secondary-button up (the flag
still stays false). -/
theorem C2_up_flag_false (cf : Int) (e : CGEvent) :
    mouse_callback ⟨cf, false⟩ kCGEventLeftMouseUp e =
      if cf = 3 then
        (⟨cf, false⟩,
         { e with type := kCGEventOtherMouseUp, buttonNumber := kCGMouseButtonCenter })
      else
        (⟨cf, false⟩, e) := by
  by_cases h : cf = 3 <;>
    simp [mouse_callback, CGEventSetType, CGEventSetIntegerValueField,
      kCGEventLeftMouseDown, kCGEventLeftMouseUp, kCGEventOtherMouseUp,
      kCGMouseEventButtonNumber, h]

/-- C3 counterexample: with the flag already true (contact count 0), a
primary-button down event is *not* passed through untouched — the guard is
bypassed because `is_middle_click` is true, and the switch rewrites the
event's type and button field to the secondary button. -/
theorem C3_counterexample :
    (mouse_callback ⟨0, true⟩ kCGEventLeftMouseDown sampleDownEvent).2 ≠ sampleDownEvent := by
  decide

/-- C3 (amended): a primary-button down event delivered while the Click
Conversion Flag is already true is rewritten to a secondary-button (middle)
down event — not passed through — and the flag remains true, for every value
of the current contact count. -/
theorem C3_down_flag_true_rewrites (cf : Int) (e : CGEvent) :
    mouse_callback ⟨cf, true⟩ kCGEventLeftMouseDown e =
      (⟨cf, true⟩,
       { e with type := kCGEventOtherMouseDown, buttonNumber := kCGMouseButtonCenter }) := by
  simp [mouse_callback, CGEventSetType, CGEventSetIntegerValueField,
    kCGEventLeftMouseDown, kCGEventLeftMouseUp, kCGEventOtherMouseDown,
    kCGMouseEventButtonNumber]

/-- C4: a primary-button up event delivered while the Click Conversion Flag
is true is rewritten to a secondary-button (middle) up event and the flag
becomes false, for every value of the current contact count (including 0). -/
theorem C4_up_flag_true_converts (cf : Int) (e : CGEvent) :
    mouse_callback ⟨cf, true⟩ kCGEventLeftMouseUp e =
      (⟨cf, false⟩,
       { e with type := kCGEventOtherMouseUp, buttonNumber := kCGMouseButtonCenter }) := by
  simp [mouse_callback, CGEventSetType, CGEventSetIntegerValueField,
    kCGEventLeftMouseDown, kCGEventLeftMouseUp, kCGEventOtherMouseUp,
    kCGMouseEventButtonNumber]

/-- C8: for every state, event type and event, `mouse_callback` leaves the
positional (`location`), timing (`timestamp`) and remaining (`flags`) fields
of the event unchanged, and the event it returns is the received event with
at most its type and button-identifier fields modified — one event in, the
same one event out, with no failure path. -/
theorem C8_only_type_and_button_change (g : FmGlobals) (type : Nat) (e : CGEvent) :
    ((mouse_callback g type e).2.location = e.location ∧
     (mouse_callback g type e).2.timestamp = e.timestamp ∧
     (mouse_callback g type e).2.flags = e.flags) ∧
    ∃ ty btn, (mouse_callback g type e).2 =
      { e with type := ty, buttonNumber := btn } := by
  cases e
  unfold mouse_callback CGEventSetType CGEventSetIntegerValueField
  split
  · exact ⟨⟨rfl, rfl, rfl⟩, _, _, rfl⟩
  · split
    · refine ⟨?_, ?_⟩ <;> simp
    · split
      · refine ⟨?_, ?_⟩ <;> simp
      · exact ⟨⟨rfl, rfl, rfl⟩, _, _, rfl⟩

/-- C10: the monolithic variant's event transformer and contact tracker
(`mouse_callback` and `touch_callback` in `main.c`) are extensionally equal
to the modular variant's (in `backend.c`): same returned event, same flag
update, same contact-count update, for every input. -/
theorem C10_variants_extensionally_equal :
    (∀ (g : FmGlobals) (type : Nat) (e : CGEvent),
      MainC.mouse_callback g type e = mouse_callback g type e) ∧
    (∀ (F T : Type) (g : FmGlobals) (device : Int) (fingers : F) (nFingers : Int)
      (timestamp : T) (frame : Int),
      MainC.touch_callback g device fingers nFingers timestamp frame =
        touch_callback g device fingers nFingers timestamp frame) :=
  ⟨fun _ _ _ => rfl, fun _ _ _ _ _ _ _ _ => rfl⟩

/-!
## Theorems about the Contact Tracker
-/

/-- C5: after any nonempty finite sequence of touch-frame reports, the stored
contact count equals exactly the `nFingers` argument of the most recent
`touch_callback` invocation, independently of the initial state and of all
earlier reports (last-write-wins overwrite). -/
theorem C5_last_write_wins (g : FmGlobals) (frames : List Frame) (h : frames ≠ []) :
    (run_frames g frames).current_fingers = (frames.getLast h).nFingers := by
  induction frames generalizing g with
  | nil => exact absurd rfl h
  | cons f rest ih =>
    cases rest with
    | nil => simp [run_frames, touch_callback, List.getLast]
    | cons f2 r2 =>
      have hne : f2 :: r2 ≠ [] := List.cons_ne_nil f2 r2
      have hstep : run_frames g (f :: f2 :: r2) =
          run_frames ⟨f.nFingers, g.is_middle_click⟩ (f2 :: r2) := by
        simp [run_frames, touch_callback]
      rw [hstep, ih ⟨f.nFingers, g.is_middle_click⟩ hne, List.getLast_cons hne]

/-!
## Theorems about the bounded-retry acquisition loop
-/

/-- Helper: if every attempt from index `i` up to 300 fails and `fuel` is
exactly the number of remaining loop indices, the acquisition loop executes
its body once per index — one `CGEventTapCreate` call and one `sleep(1)`
each — and ends with no tap. -/
theorem tap_loop_all_fail (create : Nat → Option Nat) :
    ∀ fuel i, i + fuel = 300 → (∀ j, i ≤ j → j < 300 → create j = none) →
      tap_loop create i fuel none = (fuel, fuel, none) := by
  intro fuel
  induction fuel with
  | zero =>
    intro i hi h
    simp [tap_loop]
  | succ k ih =>
    intro i hi h
    have hilt : i < 300 := by omega
    have hci : create i = none := h i le_rfl hilt
    have hrest := ih (i + 1) (by omega) (fun j hj hj300 => h j (by omega) hj300)
    simp [tap_loop, hilt, hci, hrest, Nat.add_comm]

/-- Helper: if the acquisition loop ends with no tap, then it started with no
tap and every attempt it could reach failed. -/
theorem tap_loop_result_none (create : Nat → Option Nat) :
    ∀ fuel i tap, (tap_loop create i fuel tap).2.2 = none →
      tap = none ∧ ∀ j, i ≤ j → j < 300 → j < i + fuel → create j = none := by
  intro fuel
  induction fuel with
  | zero =>
    intro i tap h
    simp [tap_loop] at h
    exact ⟨h, fun j hj _ hjf => absurd hjf (by omega)⟩
  | succ k ih =>
    intro i tap h
    by_cases hc : tap = none ∧ i < 300
    · obtain ⟨htap, hi⟩ := hc
      subst htap
      simp [tap_loop, hi] at h
      have hrec := ih (i + 1) (create i) h
      refine ⟨rfl, fun j hij hj300 hjf => ?_⟩
      rcases Nat.eq_or_lt_of_le hij with heq | hlt
      · rw [← heq]; exact hrec.1
      · exact hrec.2 j hlt hj300 (by omega)
    · have hstop : tap_loop create i (k + 1) tap = (0, 0, tap) := by
        simp [tap_loop, hc]
      rw [hstop] at h
      exact ⟨h, fun j hij hj300 hjf => absurd ⟨h, by omega⟩ hc⟩

/-- C6: starting from a state with no tap handle, if every
`CGEventTapCreate` attempt fails then `listen_click_loop` makes exactly 300
attempts — no more, no fewer — sleeps one time unit after each failed
attempt (300 sleeps), and only then reports the permission-denied
(`InterceptionUnavailable`) error; and if some attempt within the bound
succeeds, that error is never reported. -/
theorem C6_bounded_retry (create : Nat → Option Nat) (src : Option Nat) (s : fm_state)
    (h : s.tap_event = none) :
    ((∀ i, i < 300 → create i = none) →
      listen_click_loop create src s =
        ({ s with tap_event := none }, 300, 300, LCLResult.tapFailed)) ∧
    ((∃ i, i < 300 ∧ create i ≠ none) →
      (listen_click_loop create src s).2.2.2 ≠ LCLResult.tapFailed) := by
  constructor
  · intro hall
    have hA := tap_loop_all_fail create 300 0 (by omega) (fun j _ hj => hall j hj)
    simp [listen_click_loop, h, hA]
  · rintro ⟨i, hi, hne⟩ hcontr
    have hnone : (tap_loop create 0 300 s.tap_event).2.2 = none := by
      cases htl : (tap_loop create 0 300 s.tap_event).2.2 with
      | none => rfl
      | some t => cases src <;> simp [listen_click_loop, htl] at hcontr
    have hB := tap_loop_result_none create 300 0 s.tap_event hnone
    exact hne (hB.2 i (Nat.zero_le i) hi (by omega))

/-- C6 witness: with every `CGEventTapCreate` attempt failing, a concrete
fresh state yields exactly 300 attempts, 300 sleeps, and the
permission-denied error. -/
theorem C6_witness :
    (new_state ⟨[some 7], 1⟩).tap_event = none ∧
    listen_click_loop (fun _ => none) none (new_state ⟨[some 7], 1⟩) =
      ({ new_state ⟨[some 7], 1⟩ with tap_event := none }, 300, 300, LCLResult.tapFailed) :=
  ⟨rfl, (C6_bounded_retry (fun _ => none) none (new_state ⟨[some 7], 1⟩) rfl).1
    (fun _ _ => rfl)⟩

/-- C5 witness: on the concrete two-frame sequence `framesC5` the stored
contact count ends up equal to the last report's count, 2. -/
theorem C5_witness :
    framesC5 ≠ [] ∧ (run_frames ⟨0, false⟩ framesC5).current_fingers = 2 := by
  refine ⟨by decide, ?_⟩
  rw [C5_last_write_wins ⟨0, false⟩ framesC5 (by decide)]
  decide

/-!
## Theorems about teardown of the Device Subscription Set
-/

/-- C7: evaluation at the failing input.  `devices_cleanup` takes the set by
value and never clears it, so a second call immediately after the first sees
the same single-handle set and releases handle 7 a second time — the second
call does not operate on an effectively empty set. -/
theorem C7_second_cleanup_releases_again :
    (devices_cleanup ⟨[some 7], 1⟩ ++ devices_cleanup ⟨[some 7], 1⟩).count
      (MTCall.release 7) = 2 := by decide

/-- Helper: `stop_io_notifications` does not touch the Device Subscription
Set. -/
theorem stop_io_notifications_devices (s : fm_state) :
    (stop_io_notifications s).devices = s.devices := by
  unfold stop_io_notifications
  split <;> rfl

/-- Helper: `listen_click_loop` never touches the Device Subscription Set. -/
theorem listen_click_loop_devices (create : Nat → Option Nat) (src : Option Nat)
    (s : fm_state) : ((listen_click_loop create src s).1).devices = s.devices := by
  cases htl : (tap_loop create 0 300 s.tap_event).2.2 with
  | none => simp [listen_click_loop, htl]
  | some t => cases src <;> simp [listen_click_loop, stop_click_loop, htl]

/-- Helper: whenever the `for (;;)` loop of `run_click_loop` exits (that is,
some `listen_click_loop` call returned nonzero), the devices field is
unchanged and the Multitouch calls emitted on the exit path are exactly one
`devices_cleanup` of that unchanged set. -/
theorem run_click_loop_iter_spec (oracle : Nat → (Nat → Option Nat) × Option Nat) :
    ∀ fuel n s s' tr, run_click_loop_iter oracle n fuel s = some (s', tr) →
      s'.devices = s.devices ∧ tr = devices_cleanup s.devices := by
  intro fuel
  induction fuel with
  | zero =>
    intro n s s' tr h
    simp [run_click_loop_iter] at h
  | succ k ih =>
    intro n s s' tr h
    simp only [run_click_loop_iter] at h
    split at h
    · have hrec := ih (n + 1) _ s' tr h
      rw [listen_click_loop_devices] at hrec
      exact hrec
    · obtain ⟨hs, htr⟩ := Prod.mk.injEq .. ▸ Option.some.injEq .. ▸ h
      subst hs htr
      rw [stop_io_notifications_devices, listen_click_loop_devices]
      exact ⟨rfl, rfl⟩

/-- Helper: `devices_register` performs no `release` call. -/
theorem devices_register_release_count (dv : mt_devices) (d : Nat) :
    (devices_register dv).count (MTCall.release d) = 0 := by
  rw [List.count_eq_zero]
  intro hmem
  rw [devices_register, List.mem_flatMap] at hmem
  obtain ⟨i, hi, hmem2⟩ := hmem
  cases hslot : CFArrayGetValueAtIndex dv.array i with
  | none => rw [hslot] at hmem2; simp at hmem2
  | some x => rw [hslot] at hmem2; simp at hmem2

/-- C9: on the fatal exit path — `run_click_loop` returning after a failed
`listen_click_loop`, followed by `state_cleanup` — the subscription set's
state is unchanged by teardown (`devices_cleanup` takes it by value and
clears nothing), so the final state still lists every released handle,
`state_cleanup` emits a second identical per-device unregister/stop/release
sequence, and each handle's release is performed twice overall. -/
theorem C9_fatal_path_double_cleanup (p : Nat)
    (oracle : Nat → (Nat → Option Nat) × Option Nat) (fuel : Nat)
    (s s' : fm_state) (tr : List MTCall)
    (h : run_click_loop p true oracle fuel s = some (s', tr)) :
    s'.devices = s.devices ∧
    tr = devices_register s.devices ++ devices_cleanup s.devices ∧
    (state_cleanup s').2 = devices_cleanup s.devices ∧
    ∀ d, (tr ++ (state_cleanup s').2).count (MTCall.release d) =
      2 * (devices_cleanup s.devices).count (MTCall.release d) := by
  unfold run_click_loop listen_io_notification at h
  simp only [Bool.true_eq_false, if_false] at h
  cases hit : run_click_loop_iter oracle 0 fuel { s with port := some p } with
  | none => rw [hit] at h; exact absurd h (by simp)
  | some res =>
    obtain ⟨s2, tr2⟩ := res
    rw [hit] at h
    simp only [Option.some.injEq, Prod.mk.injEq] at h
    obtain ⟨hs', htr⟩ := h
    have hspec := run_click_loop_iter_spec oracle fuel 0 { s with port := some p } s2 tr2 hit
    have hdev2 : s2.devices = s.devices := hspec.1
    have htr2 : tr2 = devices_cleanup s.devices := hspec.2
    have hdev : s'.devices = s.devices := by rw [← hs']; exact hdev2
    have htrfull : tr = devices_register s.devices ++ devices_cleanup s.devices := by
      rw [← htr, htr2]
    have hsc : (state_cleanup s').2 = devices_cleanup s.devices := by
      have hio : (stop_io_notifications s').devices = s.devices :=
        (stop_io_notifications_devices s').trans hdev
      simp only [state_cleanup, stop_click_loop]
      rw [hio]
    refine ⟨hdev, htrfull, hsc, fun d => ?_⟩
    rw [htrfull, hsc, List.count_append, List.count_append,
      devices_register_release_count]
    omega

/-- C9 witness: a concrete fatal run (single device handle 7, every tap
attempt failing) leaves the set unchanged and releases handle 7 twice across
`run_click_loop`'s exit path and the subsequent `state_cleanup`. -/
theorem C9_witness :
    (new_state ⟨[some 7], 1⟩).devices = (new_state ⟨[some 7], 1⟩).devices ∧
    [MTCall.registerCb 7, MTCall.start 7, MTCall.unregisterCb 7, MTCall.stop 7,
        MTCall.release 7] =
      devices_register ⟨[some 7], 1⟩ ++ devices_cleanup ⟨[some 7], 1⟩ ∧
    (state_cleanup (new_state ⟨[some 7], 1⟩)).2 = devices_cleanup ⟨[some 7], 1⟩ ∧
    ([MTCall.registerCb 7, MTCall.start 7, MTCall.unregisterCb 7, MTCall.stop 7,
        MTCall.release 7] ++ (state_cleanup (new_state ⟨[some 7], 1⟩)).2).count
        (MTCall.release 7) =
      2 * (devices_cleanup ⟨[some 7], 1⟩).count (MTCall.release 7) := by
  have h := C9_fatal_path_double_cleanup 0 (fun _ => ((fun _ => none), none)) 1
    (new_state ⟨[some 7], 1⟩) (new_state ⟨[some 7], 1⟩)
    [MTCall.registerCb 7, MTCall.start 7, MTCall.unregisterCb 7, MTCall.stop 7,
      MTCall.release 7] (by decide)
  exact ⟨h.1, h.2.1, h.2.2.1, h.2.2.2 7⟩
